import Mathlib

/-!
# Verification of the Allbirds shoe-search adapter

A shallow embedding of `src/allbirds-shoe-search/server.ts`: the query
interpreter (`parseQueryAndSize`, `resolveSize`), the catalog filter
(`searchAllbirds`), the product cache (`fetchAllProducts`) and the tool
handler (`handleSearchTool`), together with theorems settling the spec
claims about them.

Machine reals are modelled by ℚ (JavaScript `parseFloat` results in the
ranges of interest are exact decimals), time by ℤ milliseconds, network
effects by explicit outcome parameters, and the two regex shapes used by
the code (`\bterm` with the `i` flag, and `\bword\b` with the `i` flag)
by executable word-boundary matchers over lowercased character lists.
-/

namespace Allbirds

/-- Lowercasing as used by `toLowerCase()` / the regex `i` flag (ASCII). -/
def lowerStr (s : String) : String :=
  String.mk (s.data.map Char.toLower)

/-! ## JavaScript numeric parsing: `parseFloat` and `Math.round`

A successfully parsed JS number is an exact decimal
`num / 10 ^ den10`, held as an integer numerator and a power-of-ten
denominator exponent (`JsNum`). All comparisons the program performs
are decided by integer arithmetic on this representation;
`JsNum.toRat` and the bridging lemmas below connect them to the
rational value. -/

/-- Numeric value of a list of decimal digit characters. -/
def natOfDigits (ds : List Char) : ℕ :=
  ds.foldl (fun a c => a * 10 + (c.toNat - 48)) 0

/-- An exact decimal number `num / 10 ^ den10`, the result of a
successful JS `parseFloat`. -/
structure JsNum where
  num : ℤ
  den10 : ℕ
  deriving DecidableEq, Repr

/-- The rational value of a `JsNum`. -/
def JsNum.toRat (x : JsNum) : ℚ :=
  (x.num : ℚ) / (10 : ℚ) ^ x.den10

/-- `n ≤ x` for an integer bound `n`, decided by integer arithmetic. -/
def JsNum.geInt (x : JsNum) (n : ℤ) : Bool :=
  n * (10 : ℤ) ^ x.den10 ≤ x.num

/-- `x ≤ n` for an integer bound `n`, decided by integer arithmetic. -/
def JsNum.leInt (x : JsNum) (n : ℤ) : Bool :=
  x.num ≤ n * (10 : ℤ) ^ x.den10

/-- JS `Math.round` on a `JsNum`: round half toward positive infinity
(`⌊x + 1/2⌋`, computed by a floor division on integers). -/
def JsNum.round (x : JsNum) : ℤ :=
  Int.fdiv (2 * x.num + (10 : ℤ) ^ x.den10) (2 * (10 : ℤ) ^ x.den10)

/-- Model of JS `parseFloat` on a character list with leading whitespace
already stripped: longest numeric literal `[+-]?digits[.digits][(e|E)[+-]digits]`
at the start of the input; `none` models `NaN`. (The `Infinity` literals are
not modelled: they never satisfy any range check this program performs, so
every observable behaviour agrees.) -/
def parseFloatCore (cs : List Char) : Option JsNum :=
  let sgnRest : ℤ × List Char :=
    match cs with
    | '-' :: r => (-1, r)
    | '+' :: r => (1, r)
    | _ => (1, cs)
  let sgn := sgnRest.1
  let cs1 := sgnRest.2
  let intDs := cs1.takeWhile Char.isDigit
  let cs2 := cs1.dropWhile Char.isDigit
  let fracRest : List Char × List Char :=
    match cs2 with
    | '.' :: r => (r.takeWhile Char.isDigit, r.dropWhile Char.isDigit)
    | _ => ([], cs2)
  let fracDs := fracRest.1
  let cs3 := fracRest.2
  if intDs.isEmpty && fracDs.isEmpty then none
  else
    let mantissa : ℤ :=
      sgn * (natOfDigits intDs * 10 ^ fracDs.length + natOfDigits fracDs)
    let expVal : ℤ :=
      match cs3 with
      | c :: r =>
        if c = 'e' ∨ c = 'E' then
          let esgnRest : ℤ × List Char :=
            match r with
            | '-' :: rr => (-1, rr)
            | '+' :: rr => (1, rr)
            | _ => (1, r)
          let eds := esgnRest.2.takeWhile Char.isDigit
          if eds.isEmpty then 0 else esgnRest.1 * natOfDigits eds
        else 0
      | [] => 0
    some
      (match expVal with
      | Int.ofNat k => { num := mantissa * 10 ^ k, den10 := fracDs.length }
      | Int.negSucc k => { num := mantissa, den10 := fracDs.length + (k + 1) })

/-- Model of JS `parseFloat` on a string (`none` models `NaN`). -/
def jsParseFloat (s : String) : Option JsNum :=
  parseFloatCore (s.data.dropWhile Char.isWhitespace)

/-! ## Word-boundary regex tests

The code uses two regex shapes, both with the `i` flag:
* the term filter builds `new RegExp("\\b" + escapedTerm, "i")` — a word
  boundary on the LEFT of the (literal, since regex specials are escaped)
  term only;
* the gender filter uses `/\bmen\b/i` and `/\bwomen\b/i` — boundaries on
  both sides.
-/

/-- JS regex word character (`\w`): ASCII letter, digit or underscore. -/
def isWordChar (c : Char) : Bool :=
  c.isAlphanum || c == '_'

/-- Whether the character at index `i` of `s` is a word character
(out of range counts as non-word, like the ends of the subject string). -/
def wordAt (s : List Char) (i : ℕ) : Bool :=
  isWordChar (s.getD i ' ')

/-- JS regex `\b`: a word boundary between positions `i - 1` and `i`. -/
def boundaryAt (s : List Char) (i : ℕ) : Bool :=
  let before : Bool :=
    match i with
    | 0 => false
    | j + 1 => wordAt s j
  before != wordAt s i

/-- The literal pattern `pat` occurs in `s` starting at index `i`. -/
def matchAt (pat s : List Char) (i : ℕ) : Bool :=
  (s.drop i).take pat.length == pat

/-- Model of `new RegExp("\\b" + escape(pat), "i").test(s)`: the literal
pattern occurs somewhere in `s` with a word boundary on its left,
case-insensitively. -/
def bTest (pat s : String) : Bool :=
  let p := (lowerStr pat).data
  let t := (lowerStr s).data
  (List.range (t.length + 1)).any fun i => boundaryAt t i && matchAt p t i

/-- Model of `/\b pat \b/i.test(s)` (boundaries on both sides):
the literal pattern occurs somewhere in `s` flanked by word boundaries,
case-insensitively. -/
def bbTest (pat s : String) : Bool :=
  let p := (lowerStr pat).data
  let t := (lowerStr s).data
  (List.range (t.length + 1)).any fun i =>
    boundaryAt t i && matchAt p t i && boundaryAt t (i + p.length)

/-! ## Query interpreter -/

/-- EU → US men's size conversion table (`EU_TO_US` in the source). -/
def EU_TO_US : ℤ → Option String
  | 35 => some "4"
  | 36 => some "4.5"
  | 37 => some "5"
  | 38 => some "6"
  | 39 => some "6.5"
  | 40 => some "7"
  | 41 => some "8"
  | 42 => some "9"
  | 43 => some "10"
  | 44 => some "11"
  | 45 => some "12"
  | 46 => some "13"
  | 47 => some "14"
  | 48 => some "15"
  | _ => none

/-- Generic words that appear in queries but not in product titles
(`IGNORED_TERMS` in the source). -/
def IGNORED_TERMS : List String :=
  ["shoes", "shoe", "chaussures", "chaussure", "sneakers", "sneaker"]

/-- `resolveSize` from the source: if the string parses to a number in
`[35, 50]`, round and look it up in the EU→US table, falling back to the
input; otherwise return the input unchanged. -/
def resolveSize (size : String) : String :=
  match jsParseFloat size with
  | some num =>
    if num.geInt 35 && num.leInt 50 then (EU_TO_US num.round).getD size else size
  | none => size

/-- Token classification used by `parseQueryAndSize`: a token is a size
token when its `parseFloat` value lies in the US range `[4, 15]` or the
EU range `[35, 50]`. -/
def isSizeToken (t : String) : Bool :=
  match jsParseFloat t with
  | some num => (num.geInt 4 && num.leInt 15) || (num.geInt 35 && num.leInt 50)
  | none => false

/-- `rawQuery.toLowerCase().split(/\s+/).filter(Boolean)`: lowercase, then
the maximal whitespace-free runs, in order. -/
def wordsAux : List Char → List Char → List String
  | [], acc => if acc.isEmpty then [] else [String.mk acc.reverse]
  | c :: cs, acc =>
    if c.isWhitespace then
      if acc.isEmpty then wordsAux cs []
      else String.mk acc.reverse :: wordsAux cs []
    else wordsAux cs (c :: acc)

/-- Tokenization step of `parseQueryAndSize`. -/
def tokenize (rawQuery : String) : List String :=
  wordsAux (lowerStr rawQuery).data []

/-- The classification loop of `parseQueryAndSize`: split the token list
into (size tokens, text tokens), dropping connector and ignored words. -/
def classifyTokens : List String → List String × List String
  | [] => ([], [])
  | t :: ts =>
    let rest := classifyTokens ts
    if isSizeToken t then (t :: rest.1, rest.2)
    else if t = "taille" ∨ t = "size" then rest
    else if t ∈ IGNORED_TERMS then rest
    else (rest.1, t :: rest.2)

/-- Result of the query interpreter. -/
structure ParsedQuery where
  terms : List String
  size : Option String
  deriving DecidableEq, Repr

/-- `parseQueryAndSize` from the source: tokenize, classify, let an
explicit size parameter win over a query-embedded size token, and resolve
the chosen raw size (JS truthiness: an empty raw size yields no size). -/
def parseQueryAndSize (rawQuery : String) (explicitSize : Option String) : ParsedQuery :=
  let parts := classifyTokens (tokenize rawQuery)
  let rawSize : Option String :=
    match explicitSize with
    | some s => some s
    | none => parts.1.head?
  let size : Option String :=
    match rawSize with
    | some s => if s ≠ "" then some (resolveSize s) else none
    | none => none
  { terms := parts.2, size := size }

/-! ## Catalog data model (Shopify product shapes from the source) -/

/-- `ShopifyVariant`: `available` is `Option Bool` because the code
guards with `v.available !== false`, which distinguishes an explicit
`false` from an absent field. -/
structure ShopifyVariant where
  title : String
  price : String
  available : Option Bool
  deriving DecidableEq, Repr

/-- `ShopifyProduct` (images kept as their `src` strings). -/
structure ShopifyProduct where
  title : String
  handle : String
  variants : List ShopifyVariant
  images : List String
  deriving DecidableEq, Repr

/-- A returned product card (`Shoe` in the source). -/
structure Shoe where
  name : String
  price : String
  imageUrl : String
  productUrl : String
  size : Option String
  handle : String
  deriving DecidableEq, Repr

/-- Gender filter argument. -/
inductive Gender where
  | men
  | women
  deriving DecidableEq, Repr

/-- `SearchResult` from the source; `error = none` models `error: null`. -/
structure SearchResult where
  query : String
  size : Option String
  gender : Option Gender
  shoes : List Shoe
  totalFound : ℕ
  error : Option String
  deriving DecidableEq, Repr

/-! ## Catalog filter (`searchAllbirds`) -/

/-- The term filter: keep products whose (lowercased) title matches every
term under the left-word-boundary regex (`terms.length === 0 ||
terms.every(...)` in the source). -/
def termFilter (terms : List String) (ps : List ShopifyProduct) : List ShopifyProduct :=
  ps.filter fun p =>
    terms.isEmpty || terms.all fun term => bTest term (lowerStr p.title)

/-- The gender filter: `/\bwomen\b/i` for women; `/\bmen\b/i` and not
`/\bwomen\b/i` for men; no filtering when unspecified. -/
def genderFilter : Option Gender → List ShopifyProduct → List ShopifyProduct
  | some Gender.women, ps => ps.filter fun p => bbTest "women" p.title
  | some Gender.men, ps => ps.filter fun p => bbTest "men" p.title && !bbTest "women" p.title
  | none, ps => ps

/-- The size filter: keep products with at least one variant whose title
equals the size case-insensitively and whose availability is not
explicitly `false`. -/
def sizeFilter : Option String → List ShopifyProduct → List ShopifyProduct
  | some usSize, ps =>
    ps.filter fun p =>
      p.variants.any fun v => lowerStr v.title == lowerStr usSize && v.available != some false
  | none, ps => ps

/-- The full filter pipeline of `searchAllbirds`, before truncation. -/
def matchedProducts (ps : List ShopifyProduct) (terms : List String)
    (usSize : Option String) (gender : Option Gender) : List ShopifyProduct :=
  sizeFilter usSize (genderFilter gender (termFilter terms ps))

/-- `$` + `parseFloat(price).toFixed(0)` (`toFixed(0)` rounds half away
from zero toward the larger integer, which on these decimals coincides
with `Math.round`); `parseFloat` failure renders `NaN`. -/
def formatPrice (price : String) : String :=
  match jsParseFloat price with
  | some q => "$" ++ toString q.round
  | none => "$NaN"

/-- Building one returned `Shoe` from a retained product: target variant
is the first title-matching one when a size is present (no availability
check), else the first variant; price from the target variant when it has
a nonempty price string; image via the (effect-abstracted) image fetcher,
which never fails (it returns "" on any failure). -/
def buildShoe (fetchImage : String → String) (usSize : Option String)
    (p : ShopifyProduct) : Shoe :=
  let targetVariant : Option ShopifyVariant :=
    match usSize with
    | some s => p.variants.find? fun v => lowerStr v.title == lowerStr s
    | none => p.variants.head?
  let price : String :=
    match targetVariant with
    | some v => if v.price ≠ "" then formatPrice v.price else "See price"
    | none => "See price"
  let rawImageUrl := p.images.headD ""
  { name := p.title
    price := price
    imageUrl := if rawImageUrl ≠ "" then fetchImage rawImageUrl else ""
    productUrl :=
      "https://www.allbirds.com/products/" ++ p.handle ++
        (match usSize with
        | some s => "?size=" ++ s
        | none => "")
    size := usSize
    handle := p.handle }

/-- `searchAllbirds` from the source, with the catalog supplied as data
(the cache interaction is modelled separately by `fetchAllProducts`) and
the image fetch abstracted as a total function. -/
def searchAllbirds (fetchImage : String → String) (allProducts : List ShopifyProduct)
    (query : String) (size : Option String) (gender : Option Gender) : SearchResult :=
  let parsed := parseQueryAndSize query size
  let usSize := parsed.size
  let ms := matchedProducts allProducts parsed.terms usSize gender
  let top10 := ms.take 5
  { query := query
    size :=
      match usSize with
      | some u => some u
      | none => size
    gender := gender
    shoes := top10.map (buildShoe fetchImage usSize)
    totalFound := ms.length
    error := none }

/-! ## Catalog cache (`fetchAllProducts`) and tool handler -/

/-- Outcome of one attempted upstream catalog fetch. -/
inductive FetchOutcome where
  | success (products : List ShopifyProduct)
  | httpError (status : ℕ)
  | transportError (msg : String)
  deriving DecidableEq, Repr

/-- The fetch body of `fetchAllProducts` as an `Except`: a non-ok HTTP
status throws `HTTP <status>: Failed to fetch Allbirds products`, a
transport failure throws its own message. -/
def fetchResultOf : FetchOutcome → Except String (List ShopifyProduct)
  | FetchOutcome.success ps => Except.ok ps
  | FetchOutcome.httpError status =>
    Except.error ("HTTP " ++ toString status ++ ": Failed to fetch Allbirds products")
  | FetchOutcome.transportError msg => Except.error msg

/-- The module-level cache state: `productsCache` (`null` initially) and
`cacheTime` in ms. -/
structure CacheState where
  productsCache : Option (List ShopifyProduct)
  cacheTime : ℤ
  deriving DecidableEq, Repr

/-- `CACHE_TTL_MS = 5 * 60 * 1000`. -/
def CACHE_TTL_MS : ℤ := 5 * 60 * 1000

/-- The refresh branch of `fetchAllProducts`: on success replace snapshot
and timestamp; on failure the throw happens before any assignment, so the
cache is left untouched. The `Bool` records that an upstream fetch was
performed. -/
def refreshFetch (st : CacheState) (now : ℤ) (o : FetchOutcome) :
    Except String (List ShopifyProduct) × CacheState × Bool :=
  match fetchResultOf o with
  | Except.ok ps => (Except.ok ps, { productsCache := some ps, cacheTime := now }, true)
  | Except.error e => (Except.error e, st, true)

/-- `fetchAllProducts` from the source as a state transition: serve the
snapshot without fetching when one exists and is younger than the TTL,
otherwise perform one upstream fetch. -/
def fetchAllProducts (st : CacheState) (now : ℤ) (o : FetchOutcome) :
    Except String (List ShopifyProduct) × CacheState × Bool :=
  match st.productsCache with
  | some cached =>
    if now - st.cacheTime < CACHE_TTL_MS then (Except.ok cached, st, false)
    else refreshFetch st now o
  | none => refreshFetch st now o

/-- The tool handler registered in `createServer`: on success return the
`searchAllbirds` result; on any thrown error return an error-shaped
`SearchResult` echoing the raw inputs, with the `isError` flag (the
returned `Bool`) set. Totality of this function is the embedding of
"never raises past the public boundary". -/
def handleSearchTool (o : FetchOutcome) (fetchImage : String → String)
    (query : String) (size : Option String) (gender : Option Gender) :
    SearchResult × Bool :=
  match fetchResultOf o with
  | Except.ok ps => (searchAllbirds fetchImage ps query size gender, false)
  | Except.error e =>
    ({ query := query, size := size, gender := gender, shoes := [],
       totalFound := 0, error := some e }, true)

/-! ## Bridging lemmas: integer comparisons on `JsNum` against the
rational value -/

/-- `geInt` decides the rational inequality `n ≤ x`. -/
theorem JsNum.geInt_iff (x : JsNum) (n : ℤ) :
    x.geInt n = true ↔ (n : ℚ) ≤ x.toRat := by
  have hpos : (0 : ℚ) < (10 : ℚ) ^ x.den10 := by positivity
  unfold JsNum.geInt JsNum.toRat
  rw [decide_eq_true_eq, le_div_iff₀ hpos]
  constructor
  · intro h
    calc (n : ℚ) * (10 : ℚ) ^ x.den10 = ((n * 10 ^ x.den10 : ℤ) : ℚ) := by push_cast; ring
    _ ≤ (x.num : ℚ) := by exact_mod_cast h
  · intro h
    have h2 : ((n * 10 ^ x.den10 : ℤ) : ℚ) ≤ (x.num : ℚ) := by
      calc ((n * 10 ^ x.den10 : ℤ) : ℚ) = (n : ℚ) * (10 : ℚ) ^ x.den10 := by push_cast; ring
      _ ≤ (x.num : ℚ) := h
    exact_mod_cast h2

/-- `leInt` decides the rational inequality `x ≤ n`. -/
theorem JsNum.leInt_iff (x : JsNum) (n : ℤ) :
    x.leInt n = true ↔ x.toRat ≤ (n : ℚ) := by
  have hpos : (0 : ℚ) < (10 : ℚ) ^ x.den10 := by positivity
  unfold JsNum.leInt JsNum.toRat
  rw [decide_eq_true_eq, div_le_iff₀ hpos]
  constructor
  · intro h
    calc (x.num : ℚ) ≤ ((n * 10 ^ x.den10 : ℤ) : ℚ) := by exact_mod_cast h
    _ = (n : ℚ) * (10 : ℚ) ^ x.den10 := by push_cast; ring
  · intro h
    have h2 : (x.num : ℚ) ≤ ((n * 10 ^ x.den10 : ℤ) : ℚ) := by
      calc (x.num : ℚ) ≤ (n : ℚ) * (10 : ℚ) ^ x.den10 := h
      _ = ((n * 10 ^ x.den10 : ℤ) : ℚ) := by push_cast; ring
    exact_mod_cast h2

/-- `JsNum.round` is `⌊value + 1/2⌋`: JS `Math.round` on the exact value. -/
theorem JsNum.round_eq (x : JsNum) :
    x.round = ⌊x.toRat + 1 / 2⌋ := by
  have hb : (0 : ℤ) ≤ 2 * (10 : ℤ) ^ x.den10 := by positivity
  have hq : x.toRat + 1 / 2 =
      ((2 * x.num + (10 : ℤ) ^ x.den10 : ℤ) : ℚ) / ((2 * 10 ^ x.den10 : ℕ) : ℚ) := by
    have h10 : ((10 : ℚ) ^ x.den10) ≠ 0 := by positivity
    unfold JsNum.toRat
    push_cast
    field_simp
    ring
  rw [hq, Rat.floor_intCast_div_natCast]
  unfold JsNum.round
  rw [Int.fdiv_eq_ediv _ hb]
  congr 1
  push_cast
  ring

/-! ## Helper lemmas about token classification -/

/-- No size token survives into the text-token component of
`classifyTokens`. -/
theorem classifyTokens_text_not_size (ts : List String) (t : String)
    (h : t ∈ (classifyTokens ts).2) : isSizeToken t = false := by
  induction ts with
  | nil => simp [classifyTokens] at h
  | cons x xs ih =>
    by_cases h1 : isSizeToken x
    · simp [classifyTokens, h1] at h
      exact ih h
    · by_cases h2 : x = "taille" ∨ x = "size"
      · simp [classifyTokens, h1, h2] at h
        exact ih h
      · by_cases h3 : x ∈ IGNORED_TERMS
        · simp [classifyTokens, h1, h2, h3] at h
          exact ih h
        · simp [classifyTokens, h1, h2, h3] at h
          rcases h with rfl | h
          · exact Bool.eq_false_iff.mpr h1
          · exact ih h

/-- Every size token of the input lands in the size-token component of
`classifyTokens`. -/
theorem classifyTokens_size_mem (ts : List String) (t : String)
    (hmem : t ∈ ts) (hsz : isSizeToken t = true) :
    t ∈ (classifyTokens ts).1 := by
  induction ts with
  | nil => simp at hmem
  | cons x xs ih =>
    rcases List.mem_cons.mp hmem with rfl | hmem2
    · simp [classifyTokens, hsz]
    · by_cases h1 : isSizeToken x
      · simp [classifyTokens, h1]
        exact Or.inr (ih hmem2)
      · by_cases h2 : x = "taille" ∨ x = "size"
        · simp [classifyTokens, h1, h2]
          exact ih hmem2
        · by_cases h3 : x ∈ IGNORED_TERMS
          · simp [classifyTokens, h1, h2, h3]
            exact ih hmem2
          · simp [classifyTokens, h1, h2, h3]
            exact ih hmem2

/-! ## Concrete fixtures used by the claim theorems -/

/-- A one-product catalog whose title contains "run" only as the start of
the longer word "Running". -/
def runningProduct : ShopifyProduct :=
  { title := "Running", handle := "running", variants := [], images := [] }

/-- Catalog probing the three interesting positions of the term regex:
word-start-of-longer-word, exact word (different case), mid-word. -/
def c1Catalog : List ShopifyProduct :=
  [{ title := "Running", handle := "running", variants := [], images := [] },
   { title := "Run Club", handle := "run-club", variants := [], images := [] },
   { title := "Outrunner", handle := "outrunner", variants := [], images := [] }]

/-- Product titled with the claim's men's example title. -/
def mensRunner : ShopifyProduct :=
  { title := "Men\x27s Runner", handle := "mens-runner", variants := [], images := [] }

/-- Product titled with the claim's women's example title. -/
def womensRunner : ShopifyProduct :=
  { title := "Women\x27s Runner", handle := "womens-runner", variants := [], images := [] }

/-- A product with two variants titled "9": the first unavailable with
price 50, the second available with price 100. -/
def treeRunnerTwoVariants : ShopifyProduct :=
  { title := "Tree Runner", handle := "tree-runner",
    variants :=
      [{ title := "9", price := "50", available := some false },
       { title := "9", price := "100", available := some true }],
    images := [] }

/-! ## Claim theorems -/

/-- C1 (counterexample): the claim says the query term "run" must not
match a product titled "running"; but the term regex carries a word
boundary only on the LEFT of the term, so "run" matches at the word start
of "running" and the product is found. -/
theorem c1_term_match_counterexample :
    bTest "run" "running" = true ∧
    (searchAllbirds (fun _ => "") [runningProduct] "run" none none).totalFound = 1 := by
  decide

/-- C1 (amended): term matching is case-insensitive and anchored at a
word boundary on the left of the term only, so a term matches wherever it
starts at a word boundary — including as a proper prefix of a longer word
— but never mid-word: for the query term "run", products titled "Running"
and "Run Club" both match, while "Outrunner" does not. -/
theorem c1_term_match_word_start :
    (searchAllbirds (fun _ => "") c1Catalog "run" none none).totalFound = 2 ∧
    (searchAllbirds (fun _ => "") c1Catalog "run" none none).shoes.map Shoe.name =
      ["Running", "Run Club"] ∧
    bTest "run" "Running" = true ∧
    bTest "run" "Run Club" = true ∧
    bTest "run" "Outrunner" = false := by
  decide

/-- C2: whenever the catalog fetch fails (non-success HTTP status or
transport failure), the tool handler returns a `SearchResult` with empty
shoes, `totalFound = 0` and a non-null error, and flags it as an error;
the handler is a total function, which embeds "never raises past the
public boundary". -/
theorem c2_fetch_failure_shape (o : FetchOutcome) (fi : String → String)
    (q : String) (s : Option String) (g : Option Gender)
    (h : ∀ ps, o ≠ FetchOutcome.success ps) :
    (handleSearchTool o fi q s g).1.shoes = [] ∧
    (handleSearchTool o fi q s g).1.totalFound = 0 ∧
    (handleSearchTool o fi q s g).1.error ≠ none ∧
    (handleSearchTool o fi q s g).2 = true := by
  cases o with
  | success ps => exact absurd rfl (h ps)
  | httpError status => simp [handleSearchTool, fetchResultOf]
  | transportError msg => simp [handleSearchTool, fetchResultOf]

/-- C2 witness: the theorem applied to a concrete transport failure. -/
theorem c2_fetch_failure_shape_witness :
    (handleSearchTool (FetchOutcome.transportError "network down") (fun _ => "")
        "wool runner" none none).1.shoes = [] ∧
    (handleSearchTool (FetchOutcome.transportError "network down") (fun _ => "")
        "wool runner" none none).1.totalFound = 0 ∧
    (handleSearchTool (FetchOutcome.transportError "network down") (fun _ => "")
        "wool runner" none none).1.error ≠ none ∧
    (handleSearchTool (FetchOutcome.transportError "network down") (fun _ => "")
        "wool runner" none none).2 = true :=
  c2_fetch_failure_shape (FetchOutcome.transportError "network down") (fun _ => "")
    "wool runner" none none (fun _ hps => FetchOutcome.noConfusion hps)

/-- C3: a call of the products accessor while a snapshot exists and less
than `CACHE_TTL_MS` has elapsed performs no upstream fetch and returns the
snapshot with the state unchanged; a call with no snapshot or with at
least `CACHE_TTL_MS` elapsed performs the (single) upstream fetch, and on
success replaces both snapshot and timestamp; consequently a second call
within the window after a successful refresh serves the refreshed
snapshot without fetching. -/
theorem c3_cache_freshness (st : CacheState) (now : ℤ) (o : FetchOutcome) :
    (∀ c, st.productsCache = some c → now - st.cacheTime < CACHE_TTL_MS →
        fetchAllProducts st now o = (Except.ok c, st, false)) ∧
    ((st.productsCache = none ∨ CACHE_TTL_MS ≤ now - st.cacheTime) →
        (fetchAllProducts st now o).2.2 = true ∧
        ∀ ps, o = FetchOutcome.success ps →
          fetchAllProducts st now o =
            (Except.ok ps, { productsCache := some ps, cacheTime := now }, true)) ∧
    (∀ ps t1 t2 (o2 : FetchOutcome), t2 - t1 < CACHE_TTL_MS →
        fetchAllProducts { productsCache := some ps, cacheTime := t1 } t2 o2 =
          (Except.ok ps, { productsCache := some ps, cacheTime := t1 }, false)) := by
  refine ⟨?_, ?_, ?_⟩
  · intro c hc hlt
    simp [fetchAllProducts, hc, hlt]
  · intro hstale
    have hbranch : fetchAllProducts st now o = refreshFetch st now o := by
      rcases hstale with hnone | hle
      · simp [fetchAllProducts, hnone]
      · have hnotlt : ¬ now - st.cacheTime < CACHE_TTL_MS := not_lt.mpr hle
        cases hc : st.productsCache with
        | none => simp [fetchAllProducts, hc]
        | some c => simp [fetchAllProducts, hc, hnotlt]
    constructor
    · rw [hbranch]
      cases o <;> simp [refreshFetch, fetchResultOf]
    · intro ps hps
      subst hps
      rw [hbranch]
      simp [refreshFetch, fetchResultOf]
  · intro ps t1 t2 o2 hlt
    simp [fetchAllProducts, hlt]

/-- C3 witness: the fresh-hit clause applied to a snapshot one
millisecond short of expiry. -/
theorem c3_cache_freshness_witness :
    fetchAllProducts { productsCache := some [], cacheTime := 0 } 299999
        (FetchOutcome.transportError "x") =
      (Except.ok [], { productsCache := some [], cacheTime := 0 }, false) :=
  (c3_cache_freshness { productsCache := some [], cacheTime := 0 } 299999
      (FetchOutcome.transportError "x")).1 [] rfl (by decide)

/-- C4: `totalFound` is the length of the filtered match list before
truncation, the returned shoes never exceed 5, their number is
`min totalFound 5`, and they are exactly the first five matches in
catalog order (witnessed on the stable handles). -/
theorem c4_truncation (fi : String → String) (ps : List ShopifyProduct)
    (q : String) (s : Option String) (g : Option Gender) :
    (searchAllbirds fi ps q s g).totalFound =
      (matchedProducts ps (parseQueryAndSize q s).terms (parseQueryAndSize q s).size g).length ∧
    (searchAllbirds fi ps q s g).shoes.length ≤ 5 ∧
    (searchAllbirds fi ps q s g).shoes.length =
      min (searchAllbirds fi ps q s g).totalFound 5 ∧
    (searchAllbirds fi ps q s g).shoes.map Shoe.handle =
      ((matchedProducts ps (parseQueryAndSize q s).terms
          (parseQueryAndSize q s).size g).take 5).map ShopifyProduct.handle := by
  refine ⟨rfl, ?_, ?_, ?_⟩
  · simp [searchAllbirds, List.length_take]
  · simp [searchAllbirds, List.length_take, Nat.min_comm]
  · simp only [searchAllbirds, List.map_map]
    rfl

/-- C5: size resolution parses the string; a parsed value in `[35, 50]`
is rounded to the nearest integer (`⌊v + 1/2⌋`, shown within a half-unit
of the value) and mapped through the EU→US table with fallback to the
input; a parsed value outside `[35, 50]` (including US-range sizes) and
an unparsable string come back unchanged; concrete table, fallback and
passthrough cases. -/
theorem c5_size_resolution :
    (∀ s q, jsParseFloat s = some q → (35 : ℚ) ≤ q.toRat → q.toRat ≤ (50 : ℚ) →
        resolveSize s = (EU_TO_US q.round).getD s) ∧
    (∀ s q, jsParseFloat s = some q → ¬((35 : ℚ) ≤ q.toRat ∧ q.toRat ≤ (50 : ℚ)) →
        resolveSize s = s) ∧
    (∀ s, jsParseFloat s = none → resolveSize s = s) ∧
    (∀ q : JsNum, (q.round : ℚ) - 1 / 2 ≤ q.toRat ∧ q.toRat < (q.round : ℚ) + 1 / 2) ∧
    resolveSize "35" = "4" ∧ resolveSize "42" = "9" ∧ resolveSize "48" = "15" ∧
    resolveSize "41.6" = "9" ∧ resolveSize "49" = "49" ∧ resolveSize "50" = "50" ∧
    resolveSize "34.9" = "34.9" ∧ resolveSize "9" = "9" ∧ resolveSize "abc" = "abc" := by
  refine ⟨?_, ?_, ?_, ?_, by decide, by decide, by decide, by decide, by decide,
    by decide, by decide, by decide, by decide⟩
  · intro s q hparse h35 h50
    have hg : q.geInt 35 = true := (JsNum.geInt_iff q 35).mpr h35
    have hl : q.leInt 50 = true := (JsNum.leInt_iff q 50).mpr h50
    simp [resolveSize, hparse, hg, hl]
  · intro s q hparse hout
    have hfalse : (q.geInt 35 && q.leInt 50) = false := by
      rcases Bool.eq_false_or_eq_true (q.geInt 35 && q.leInt 50) with hb | hb
      · rcases Bool.and_eq_true_iff.mp hb with ⟨h1, h2⟩
        exact absurd ⟨(JsNum.geInt_iff q 35).mp h1, (JsNum.leInt_iff q 50).mp h2⟩ hout
      · exact hb
    simp [resolveSize, hparse, hfalse]
  · intro s hparse
    simp [resolveSize, hparse]
  · intro q
    have hre := JsNum.round_eq q
    have hle : (⌊q.toRat + 1 / 2⌋ : ℚ) ≤ q.toRat + 1 / 2 := Int.floor_le _
    have hlt : q.toRat + 1 / 2 < (⌊q.toRat + 1 / 2⌋ : ℚ) + 1 := Int.lt_floor_add_one _
    rw [hre]
    constructor <;> linarith

/-- C5 witness: the in-table clause applied to the size string "36". -/
theorem c5_size_resolution_witness :
    resolveSize "36" = (EU_TO_US (JsNum.mk 36 0).round).getD "36" :=
  c5_size_resolution.1 "36" (JsNum.mk 36 0) (by decide)
    ((JsNum.geInt_iff (JsNum.mk 36 0) 35).mp (by decide))
    ((JsNum.leInt_iff (JsNum.mk 36 0) 50).mp (by decide))

/-- C6: with an explicit size parameter, the resolved size is a function
of that parameter alone (independent of the free text and of any in-text
size token) and equals its resolution; the claim's example resolves "42"
to "9", and the discriminating example "runner 8" with explicit "42" still
resolves to "9", not "8". -/
theorem c6_explicit_size_precedence :
    (∀ raw raw2 es, (parseQueryAndSize raw (some es)).size =
        (parseQueryAndSize raw2 (some es)).size) ∧
    (∀ raw es, es ≠ "" → (parseQueryAndSize raw (some es)).size = some (resolveSize es)) ∧
    (parseQueryAndSize "runner 9" (some "42")).size = some "9" ∧
    resolveSize "42" = "9" ∧
    (parseQueryAndSize "runner 8" (some "42")).size = some "9" ∧
    (parseQueryAndSize "runner 8" none).size = some "8" := by
  refine ⟨?_, ?_, by decide, by decide, by decide, by decide⟩
  · intro raw raw2 es
    rfl
  · intro raw es hne
    simp [parseQueryAndSize, hne]

/-- C6 witness: the explicit-size clause applied to concrete inputs. -/
theorem c6_explicit_size_precedence_witness :
    (parseQueryAndSize "some words" (some "42")).size = some (resolveSize "42") :=
  c6_explicit_size_precedence.2.1 "some words" "42" (by decide)

/-- C7: the gender filter for "men" keeps exactly the products whose
title contains "men" as a whole word and not "women" as a whole word, and
for "women" exactly those containing "women" as a whole word; the claim's
example titles behave as stated end to end. -/
theorem c7_gender_filter :
    (∀ ps (p : ShopifyProduct), p ∈ genderFilter (some Gender.men) ps ↔
        p ∈ ps ∧ bbTest "men" p.title = true ∧ bbTest "women" p.title = false) ∧
    (∀ ps (p : ShopifyProduct), p ∈ genderFilter (some Gender.women) ps ↔
        p ∈ ps ∧ bbTest "women" p.title = true) ∧
    bbTest "men" "Men\x27s Runner" = true ∧
    bbTest "men" "Women\x27s Runner" = false ∧
    bbTest "women" "Women\x27s Runner" = true ∧
    (searchAllbirds (fun _ => "") [mensRunner, womensRunner] "runner" none
        (some Gender.men)).shoes.map Shoe.name = ["Men\x27s Runner"] ∧
    (searchAllbirds (fun _ => "") [mensRunner, womensRunner] "runner" none
        (some Gender.women)).shoes.map Shoe.name = ["Women\x27s Runner"] := by
  refine ⟨?_, ?_, by decide, by decide, by decide, by decide, by decide⟩
  · intro ps p
    simp [genderFilter, List.mem_filter, Bool.and_eq_true, Bool.not_eq_true']
  · intro ps p
    simp [genderFilter, List.mem_filter]

/-- C8: the `size` field of the response is asymmetric across outcomes:
on success it is the resolved size when one was resolved (falling back to
the raw parameter only if none was), while the error-shaped response
always echoes the caller's raw size parameter; on the same inputs
(query "runner", size "42") success reports "9" and failure reports
"42". -/
theorem c8_size_field_asymmetry :
    (∀ msg (fi : String → String) q s (g : Option Gender),
        (handleSearchTool (FetchOutcome.transportError msg) fi q s g).1.size = s) ∧
    (∀ status (fi : String → String) q s (g : Option Gender),
        (handleSearchTool (FetchOutcome.httpError status) fi q s g).1.size = s) ∧
    (∀ ps (fi : String → String) q s (g : Option Gender),
        (handleSearchTool (FetchOutcome.success ps) fi q s g).1.size =
          (match (parseQueryAndSize q s).size with
          | some u => some u
          | none => s)) ∧
    (handleSearchTool (FetchOutcome.success []) (fun _ => "") "runner" (some "42")
        none).1.size = some "9" ∧
    (handleSearchTool (FetchOutcome.transportError "boom") (fun _ => "") "runner"
        (some "42") none).1.size = some "42" := by
  refine ⟨?_, ?_, ?_, by decide, by decide⟩ <;> intros <;> rfl

/-- C9: size-token detection is prefix-based: any whitespace token whose
`parseFloat` prefix value lies in `[4, 15]` or `[35, 50]` is classified
as a size token and never survives into the descriptive terms, even with
trailing non-numeric characters; "4runner" and "9th" are consumed as
sizes, never as search terms. -/
theorem c9_size_token_detection :
    (∀ raw es t, t ∈ tokenize raw → isSizeToken t = true →
        t ∈ (classifyTokens (tokenize raw)).1 ∧
        t ∉ (parseQueryAndSize raw es).terms) ∧
    isSizeToken "4runner" = true ∧
    isSizeToken "9th" = true ∧
    (parseQueryAndSize "4runner" none).terms = [] ∧
    (parseQueryAndSize "4runner" none).size = some "4runner" ∧
    (parseQueryAndSize "mens 9th runner" none).terms = ["mens", "runner"] ∧
    (parseQueryAndSize "mens 9th runner" none).size = some "9th" := by
  refine ⟨?_, by decide, by decide, by decide, by decide, by decide, by decide⟩
  intro raw es t hmem hsz
  refine ⟨classifyTokens_size_mem (tokenize raw) t hmem hsz, ?_⟩
  intro hterm
  have hterm2 : t ∈ (classifyTokens (tokenize raw)).2 := hterm
  have hctr := classifyTokens_text_not_size (tokenize raw) t hterm2
  rw [hsz] at hctr
  exact absurd hctr (by decide)

/-- C9 witness: the general clause applied to the token "42" in a
concrete query. -/
theorem c9_size_token_detection_witness :
    "42" ∈ (classifyTokens (tokenize "runner 42")).1 ∧
    "42" ∉ (parseQueryAndSize "runner 42" none).terms :=
  c9_size_token_detection.1 "runner 42" none "42" (by decide) (by decide)

/-- C10: when a size is resolved, the price shown for a returned shoe
comes from the FIRST variant whose title equals the size
case-insensitively, with no availability check — while the size filter
only requires SOME title-matching variant that is not explicitly
unavailable. On the two-variant fixture the filter is satisfied by the
available $100 variant, yet the displayed price "$50" comes from the
unavailable first variant. -/
theorem c10_price_variant_mismatch :
    (∀ (fi : String → String) (p : ShopifyProduct) s v,
        (p.variants.find? fun w => lowerStr w.title == lowerStr s) = some v →
        v.price ≠ "" →
        (buildShoe fi (some s) p).price = formatPrice v.price) ∧
    (searchAllbirds (fun _ => "") [treeRunnerTwoVariants] "tree" (some "9")
        none).totalFound = 1 ∧
    (searchAllbirds (fun _ => "") [treeRunnerTwoVariants] "tree" (some "9")
        none).shoes.map Shoe.price = ["$50"] ∧
    (treeRunnerTwoVariants.variants.find? fun w => lowerStr w.title == lowerStr "9") =
      some { title := "9", price := "50", available := some false } ∧
    ((ShopifyVariant.mk "9" "50" (some false)).available != some false) = false ∧
    (treeRunnerTwoVariants.variants.any fun v =>
        lowerStr v.title == lowerStr "9" && v.available != some false) = true := by
  refine ⟨?_, by decide, by decide, by decide, by decide, by decide⟩
  intro fi p s v hfind hprice
  simp [buildShoe, hfind, hprice]

/-- C10 witness: the general clause applied to the two-variant fixture,
whose first title-matching variant is the unavailable one. -/
theorem c10_price_variant_mismatch_witness :
    (buildShoe (fun _ => "") (some "9") treeRunnerTwoVariants).price = formatPrice "50" :=
  c10_price_variant_mismatch.1 (fun _ => "") treeRunnerTwoVariants "9"
    { title := "9", price := "50", available := some false } (by decide) (by decide)

end Allbirds
